import Mathlib

/-!
Shallow embedding of the marketbloom backend (two Express servers:
`src/server.js`, a PostgreSQL variant, and `src/unnamed/part_000`, a SQLite
variant).  JavaScript strings are embedded as `List Char`; absent values
(`undefined`) are `Option.none`; JavaScript truthiness of a string value
(`undefined` and `""` are falsy) is `jsTruthy`.  The relational store is the
list of rows of the `submissions` table plus the auto-increment counter; the
two SQL statements used by the handlers (insert-returning-id and
select-all-ordered-by-timestamp-descending, plus delete-by-id reporting the
affected-row count) are embedded as `insertSubmission`,
`selectAllByTimestampDesc` and `deleteById`.  Fallible collaborators (the
store, the mail transporter) are driven by explicit outcome parameters
`DbOutcome` and `NotifierOutcome`.
-/

set_option linter.unusedVariables false

/-- A JavaScript string value, embedded as its list of characters. -/
abbrev JSString := List Char

/-- Embed a Lean string literal as a `JSString`. -/
def str (s : String) : JSString := s.data

/-- JavaScript truthiness of a possibly-`undefined` string value:
`undefined` and the empty string are falsy, every other string is truthy. -/
def jsTruthy : Option JSString → Bool
  | none => false
  | some s => !s.isEmpty

/-- JavaScript `a || b` on possibly-`undefined` string values. -/
def jsOr (a b : Option JSString) : Option JSString :=
  if jsTruthy a then a else b

/-- JavaScript `v || ""` on a possibly-`undefined` string value. -/
def jsOrEmpty (v : Option JSString) : JSString :=
  if jsTruthy v then v.getD [] else []

/-- Template-literal interpolation of a possibly-`undefined` string value:
JavaScript renders `undefined` as the string "undefined". -/
def jsInterp : Option JSString → JSString
  | none => str "undefined"
  | some s => s

/-- The environment configuration both servers read (`process.env`). -/
structure Config where
  API_KEY : JSString
  ADMIN_PASSWORD : JSString
  EMAIL_USER : Option JSString
  EMAIL_PASS : Option JSString
deriving Repr, DecidableEq

/-- The parts of an HTTP request that the two auth gates inspect:
the `x-api-key` header, the `apiKey` query parameter and the
`Authorization` header. -/
structure Request where
  xApiKey : Option JSString
  apiKeyQuery : Option JSString
  authorization : Option JSString
deriving Repr, DecidableEq

/-- Outcome of a gating middleware: either a JSON rejection
(`res.status(s).json({success:false, message})`) or `next()`. -/
inductive GateResult where
  | reject (status : Nat) (message : JSString)
  | pass
deriving Repr, DecidableEq

/-- The `requireApiKey` middleware of `src/server.js` (lines 72-77):
`const key = req.headers["x-api-key"] || req.query.apiKey;`
missing (falsy) key gives 401, key different from `process.env.API_KEY`
gives 403, otherwise `next()`. -/
def requireApiKey (env : Config) (req : Request) : GateResult :=
  let key := jsOr req.xApiKey req.apiKeyQuery
  if !jsTruthy key then GateResult.reject 401 (str "API key required")
  else if key ≠ some env.API_KEY then GateResult.reject 403 (str "Invalid API key")
  else GateResult.pass

/-- The `requireAdminAuth` middleware of `src/server.js` (lines 79-89):
rejects 401 unless the `Authorization` header is truthy and starts with
"Bearer "; then compares `header.substring(7)` with
`process.env.ADMIN_PASSWORD`, rejecting 403 on mismatch. -/
def requireAdminAuth (env : Config) (req : Request) : GateResult :=
  let header := req.authorization
  if !jsTruthy header || !(List.isPrefixOf (str "Bearer ") (header.getD [])) then
    GateResult.reject 401 (str "Admin authentication required")
  else
    let token := (header.getD []).drop 7
    if token ≠ env.ADMIN_PASSWORD then
      GateResult.reject 403 (str "Invalid admin credentials")
    else GateResult.pass

/-- The `requireApiKey` middleware of `src/unnamed/part_000` (lines 69-87);
same extraction `req.headers['x-api-key'] || req.query.apiKey`, same
statuses and messages. -/
def requireApiKey_sqlite (env : Config) (req : Request) : GateResult :=
  let apiKey := jsOr req.xApiKey req.apiKeyQuery
  if !jsTruthy apiKey then
    GateResult.reject 401 (str "API key required")
  else if apiKey ≠ some env.API_KEY then
    GateResult.reject 403 (str "Invalid API key")
  else
    GateResult.pass

/-- The `requireAdminAuth` middleware of `src/unnamed/part_000`
(lines 89-109). -/
def requireAdminAuth_sqlite (env : Config) (req : Request) : GateResult :=
  let authHeader := req.authorization
  if !jsTruthy authHeader || !(List.isPrefixOf (str "Bearer ") (authHeader.getD [])) then
    GateResult.reject 401 (str "Admin authentication required")
  else
    let token := (authHeader.getD []).drop 7
    if token ≠ env.ADMIN_PASSWORD then
      GateResult.reject 403 (str "Invalid admin credentials")
    else
      GateResult.pass

/-- A row of the `submissions` table. -/
structure Submission where
  id : Nat
  name : JSString
  business : JSString
  service : JSString
  phone : JSString
  message : JSString
  timestamp : Nat
  status : JSString
deriving Repr, DecidableEq

/-- The `submissions` table: its rows plus the auto-increment counter. -/
structure Store where
  rows : List Submission
  nextId : Nat
deriving Repr, DecidableEq

/-- Embedding of
`INSERT INTO submissions (name, business, service, phone, message) VALUES (...) RETURNING id`:
the store assigns the next id, the default timestamp (its clock `now`) and
the default status `'new'`, and returns the generated id. -/
def insertSubmission (st : Store) (now : Nat)
    (name business service phone message : JSString) : Store × Nat :=
  let row : Submission :=
    { id := st.nextId, name := name, business := business, service := service,
      phone := phone, message := message, timestamp := now, status := str "new" }
  ({ rows := st.rows ++ [row], nextId := st.nextId + 1 }, st.nextId)

/-- Embedding of `DELETE FROM submissions WHERE id = $1`: removes the rows
with the given id and reports the number of affected rows
(`result.rowCount` / `this.changes`). -/
def deleteById (st : Store) (id : Nat) : Store × Nat :=
  let kept := st.rows.filter (fun r => r.id ≠ id)
  ({ rows := kept, nextId := st.nextId }, st.rows.length - kept.length)

/-- Row order produced by `ORDER BY timestamp DESC`: later timestamps first. -/
def tsDesc (a b : Submission) : Prop := b.timestamp ≤ a.timestamp

instance : DecidableRel tsDesc :=
  fun a b => inferInstanceAs (Decidable (b.timestamp ≤ a.timestamp))

instance : IsTotal Submission tsDesc :=
  ⟨fun a b => Nat.le_total b.timestamp a.timestamp⟩

instance : IsTrans Submission tsDesc :=
  ⟨fun a b c hab hbc => Nat.le_trans hbc hab⟩

/-- Embedding of `SELECT * FROM submissions ORDER BY timestamp DESC`. -/
def selectAllByTimestampDesc (st : Store) : List Submission :=
  List.insertionSort tsDesc st.rows

/-- The HTTP status plus JSON body of a response.  Fields absent from a
handler's JSON object are `none`. -/
structure Response where
  status : Nat
  success : Bool
  message : Option JSString
  token : Option JSString
  submissionId : Option Nat
  data : Option (List Submission)
deriving Repr, DecidableEq

/-- The uniform error envelope `res.status(s).json({success:false, message})`. -/
def errorJson (status : Nat) (msg : JSString) : Response :=
  { status := status, success := false, message := some msg,
    token := none, submissionId := none, data := none }

/-- Outcome of a store query issued by a handler. -/
inductive DbOutcome where
  | ok
  | failure
deriving Repr, DecidableEq

/-- Behaviour of the mail transporter for one send: delivery succeeded,
delivery failed, or the (fire-and-forget) send has not completed. -/
inductive NotifierOutcome where
  | sent
  | failed
  | delayed
deriving Repr, DecidableEq

/-- The JSON body of a contact-form request. -/
structure ContactBody where
  name : Option JSString
  business : Option JSString
  service : Option JSString
  phone : Option JSString
  message : Option JSString
deriving Repr, DecidableEq

/-- The dynamic values a handler interpolates into the notification e-mail:
recipient, subject, the five submitted fields, and (when the template
includes them) the generated id and the current time. -/
structure MailContent where
  recipient : Option JSString
  subject : JSString
  name : JSString
  business : JSString
  service : JSString
  phone : JSString
  message : JSString
  submissionId : Option Nat
  time : Option Nat
deriving Repr, DecidableEq

/-- Everything observable about one run of a contact-form handler: the
response, the resulting store, the attempted mail sends, and the console
log entries about mail errors. -/
structure ContactOutput where
  response : Response
  store : Store
  mails : List MailContent
  emailLog : List JSString
deriving Repr, DecidableEq

/-- The `POST /api/contact` handler body of `src/server.js` (lines 121-158).
Validation `if (!name || !business || !service || !phone)` gives 400; a
throwing insert is caught and answered 500; otherwise the row is inserted
(`message || ""`), `transporter.sendMail` is invoked with a template
interpolating the five raw field values (no id, no time) and no callback or
rejection handler (so nothing is logged about a failed send), and the
response is 200 with the generated id. -/
def contactHandler (env : Config) (st : Store) (now : Nat)
    (body : ContactBody) (db : DbOutcome) (notifier : NotifierOutcome) : ContactOutput :=
  if !jsTruthy body.name || !jsTruthy body.business ||
      !jsTruthy body.service || !jsTruthy body.phone then
    { response := errorJson 400 (str "All fields required"),
      store := st, mails := [], emailLog := [] }
  else
    match db with
    | DbOutcome.failure =>
      { response := errorJson 500 (str "Server error"),
        store := st, mails := [], emailLog := [] }
    | DbOutcome.ok =>
      let inserted := insertSubmission st now (body.name.getD []) (body.business.getD [])
        (body.service.getD []) (body.phone.getD []) (jsOrEmpty body.message)
      let mail : MailContent :=
        { recipient := env.EMAIL_USER,
          subject := str "🎯 New Lead: " ++ jsInterp body.business,
          name := jsInterp body.name, business := jsInterp body.business,
          service := jsInterp body.service, phone := jsInterp body.phone,
          message := jsInterp body.message,
          submissionId := none, time := none }
      { response := { status := 200, success := true, message := some (str "Form submitted!"),
                      token := none, submissionId := some inserted.2, data := none },
        store := inserted.1, mails := [mail], emailLog := [] }

/-- The `POST /api/contact` handler body of `src/unnamed/part_000`
(lines 155-226).  Same validation; a failing `db.run` is answered 500 with
no mutation; on success the mail is built only when both e-mail credentials
are truthy, its template additionally interpolates the generated id and the
current time and defaults an absent message to 'No additional message', and
`transporter.sendMail` gets a callback that logs a send error. -/
def contactHandler_sqlite (env : Config) (st : Store) (now : Nat)
    (body : ContactBody) (db : DbOutcome) (notifier : NotifierOutcome) : ContactOutput :=
  if !jsTruthy body.name || !jsTruthy body.business ||
      !jsTruthy body.service || !jsTruthy body.phone then
    { response := errorJson 400 (str "Please fill in all required fields"),
      store := st, mails := [], emailLog := [] }
  else
    match db with
    | DbOutcome.failure =>
      { response := errorJson 500 (str "Database error"),
        store := st, mails := [], emailLog := [] }
    | DbOutcome.ok =>
      let inserted := insertSubmission st now (body.name.getD []) (body.business.getD [])
        (body.service.getD []) (body.phone.getD []) (jsOrEmpty body.message)
      let mails : List MailContent :=
        if jsTruthy env.EMAIL_USER && jsTruthy env.EMAIL_PASS then
          [{ recipient := env.EMAIL_USER,
             subject := str "🎯 New Lead: " ++ jsInterp body.business ++
               str " - MarketBloom Studio",
             name := jsInterp body.name, business := jsInterp body.business,
             service := jsInterp body.service, phone := jsInterp body.phone,
             message := if jsTruthy body.message then jsInterp body.message
               else str "No additional message",
             submissionId := some inserted.2, time := some now }]
        else []
      let emailLog : List JSString :=
        if mails ≠ [] ∧ notifier = NotifierOutcome.failed then
          [str "Email sending failed:"]
        else []
      { response := { status := 200, success := true,
                      message := some (str "Form submitted successfully! We will contact you soon."),
                      token := none, submissionId := some inserted.2, data := none },
        store := inserted.1, mails := mails, emailLog := emailLog }

/-- The `POST /api/admin/login` handler body of `src/server.js`
(lines 108-116): falsy password gives 400, wrong password gives 401,
otherwise 200 with the admin secret echoed back as the token. -/
def adminLogin (env : Config) (password : Option JSString) : Response :=
  if !jsTruthy password then errorJson 400 (str "Password required")
  else if password ≠ some env.ADMIN_PASSWORD then errorJson 401 (str "Invalid password")
  else { status := 200, success := true, message := none,
         token := some env.ADMIN_PASSWORD, submissionId := none, data := none }

/-- The `GET /api/submissions` handler body of `src/server.js`
(lines 163-170): a throwing select is answered 500, otherwise 200 with all
rows ordered by timestamp descending. -/
def submissionsHandler (st : Store) (db : DbOutcome) : Response :=
  match db with
  | DbOutcome.failure => errorJson 500 (str "Database error")
  | DbOutcome.ok =>
    { status := 200, success := true, message := none, token := none,
      submissionId := none, data := some (selectAllByTimestampDesc st) }

/-- Result of the delete handler: the response plus the resulting store. -/
structure DeleteOutput where
  response : Response
  store : Store
deriving Repr, DecidableEq

/-- The `DELETE /api/submissions/:id` handler body of `src/server.js`
(lines 175-186): a throwing delete is answered 500; `rowCount === 0` is
answered 404; otherwise 200. -/
def deleteHandler (st : Store) (id : Nat) (db : DbOutcome) : DeleteOutput :=
  match db with
  | DbOutcome.failure => { response := errorJson 500 (str "Database error"), store := st }
  | DbOutcome.ok =>
    let result := deleteById st id
    if result.2 = 0 then
      { response := errorJson 404 (str "Not found"), store := result.1 }
    else
      { response := { status := 200, success := true, message := some (str "Deleted"),
                      token := none, submissionId := none, data := none },
        store := result.1 }

/-- Route `POST /api/contact` of `src/server.js`: `requireApiKey` runs
before the handler; a rejection is the final response and touches neither
the store nor the transporter. -/
def contactRoute (env : Config) (req : Request) (st : Store) (now : Nat)
    (body : ContactBody) (db : DbOutcome) (notifier : NotifierOutcome) : ContactOutput :=
  match requireApiKey env req with
  | GateResult.reject s m =>
    { response := errorJson s m, store := st, mails := [], emailLog := [] }
  | GateResult.pass => contactHandler env st now body db notifier

/-- Route `POST /api/admin/login` of `src/server.js`: `requireApiKey` runs
before the handler. -/
def loginRoute (env : Config) (req : Request) (password : Option JSString) : Response :=
  match requireApiKey env req with
  | GateResult.reject s m => errorJson s m
  | GateResult.pass => adminLogin env password

/-- Route `GET /api/submissions` of `src/server.js`: `requireAdminAuth`
runs before the handler. -/
def submissionsRoute (env : Config) (req : Request) (st : Store) (db : DbOutcome) : Response :=
  match requireAdminAuth env req with
  | GateResult.reject s m => errorJson s m
  | GateResult.pass => submissionsHandler st db

/-- Route `DELETE /api/submissions/:id` of `src/server.js`:
`requireAdminAuth` runs before the handler; a rejection leaves the store
unchanged. -/
def deleteRoute (env : Config) (req : Request) (st : Store) (id : Nat)
    (db : DbOutcome) : DeleteOutput :=
  match requireAdminAuth env req with
  | GateResult.reject s m => { response := errorJson s m, store := st }
  | GateResult.pass => deleteHandler st id db

/-- A concrete configuration used by the concrete-input theorems:
API secret "k", admin secret "pw", e-mail credentials "u"/"p". -/
def cfgW : Config :=
  { API_KEY := str "k", ADMIN_PASSWORD := str "pw",
    EMAIL_USER := some (str "u"), EMAIL_PASS := some (str "p") }

/-- A concrete request carrying the correct `x-api-key` header for `cfgW`. -/
def reqApiW : Request :=
  { xApiKey := some (str "k"), apiKeyQuery := none, authorization := none }

/-- A concrete request carrying the correct bearer credential for `cfgW`. -/
def reqAdminW : Request :=
  { xApiKey := none, apiKeyQuery := none, authorization := some (str "Bearer pw") }

/-- A concrete stored row (id 1, timestamp 1) for the concrete-input
theorems. -/
def rowW : Submission :=
  { id := 1, name := str "A", business := str "B", service := str "C",
    phone := str "D", message := [], timestamp := 1, status := str "new" }

/-- A second concrete stored row (id 2, timestamp 2). -/
def rowW2 : Submission :=
  { id := 2, name := str "E", business := str "F", service := str "G",
    phone := str "H", message := [], timestamp := 2, status := str "new" }

/-- A concrete one-row store. -/
def stW : Store := { rows := [rowW], nextId := 2 }

/-- A concrete two-row store with timestamps 1 < 2 in insertion order. -/
def stW2 : Store := { rows := [rowW, rowW2], nextId := 3 }

/-! Helper lemmas shared by the claim theorems. -/

/-- A non-empty string value is truthy. -/
theorem jsTruthy_some_of_ne_nil {k : JSString} (h : k ≠ []) : jsTruthy (some k) = true := by
  cases k with
  | nil => exact absurd rfl h
  | cons c cs => rfl

/-- The empty string value is falsy. -/
theorem jsTruthy_some_nil : jsTruthy (some []) = false := rfl

/-- `v || ""` is just `v` with `undefined` and `""` collapsed to `""`. -/
theorem jsOrEmpty_eq_getD (v : Option JSString) : jsOrEmpty v = v.getD [] := by
  cases v with
  | none => rfl
  | some s => cases s <;> rfl

/-- "Bearer " followed by anything starts with "Bearer ". -/
theorem bearer_isPrefixOf (t : JSString) :
    List.isPrefixOf (str "Bearer ") (str "Bearer " ++ t) = true := by
  simp [List.isPrefixOf_iff_prefix]

/-- `substring(7)` recovers the token from "Bearer " followed by the token. -/
theorem bearer_drop (t : JSString) : (str "Bearer " ++ t).drop 7 = t :=
  List.drop_left' (by decide)

/-- A string starting with "Bearer " is non-empty, hence truthy. -/
theorem jsTruthy_of_bearer {h : JSString}
    (hp : List.isPrefixOf (str "Bearer ") h = true) : jsTruthy (some h) = true := by
  cases h with
  | nil => exact absurd hp (by decide)
  | cons c cs => rfl

/-- C10: the two source files implement behaviorally equivalent authorization:
on every request and configuration, the API-key gate and the admin bearer
gate of `src/server.js` and of `src/unnamed/part_000` produce the same
decision (same status and JSON message on rejection, pass-through in exactly
the same cases). -/
theorem C10_gate_equivalence (env : Config) (req : Request) :
    requireApiKey env req = requireApiKey_sqlite env req ∧
    requireAdminAuth env req = requireAdminAuth_sqlite env req :=
  ⟨rfl, rfl⟩

/-- C1 counterexample: a request carrying the `x-api-key` header with the
empty string as its value supplies a credential that is present and differs
from the configured secret "secret", so the claim requires Forbidden (403);
the gate of `src/server.js` answers 401 instead (the falsy key is treated
as absent and never compared). -/
theorem C1_counterexample :
    requireApiKey ⟨str "secret", str "pw", none, none⟩ ⟨some [], none, none⟩ =
      GateResult.reject 401 (str "API key required") ∧
    (⟨some [], none, none⟩ : Request).xApiKey = some [] ∧ ([] : JSString) ≠ str "secret" := by
  refine ⟨by decide, rfl, by decide⟩

/-- C1 (amended): for the API-key gate, a falsy extracted credential
(absent, or present but equal to the empty string) yields 401; a present
non-empty credential different from the secret yields 403; a present
non-empty credential equal to the secret passes.  For the admin bearer
gate: an absent or non-Bearer `Authorization` header yields 401; a Bearer
token different from the secret yields 403; a Bearer token equal to the
secret passes.  A gate rejection is the final response of the protected
routes (`/api/contact`, `/api/admin/login`, `/api/submissions` list and
delete) and a pass hands control to the respective handler. -/
theorem C1_auth_gates (env : Config) (req : Request) :
    (jsTruthy (jsOr req.xApiKey req.apiKeyQuery) = false →
      requireApiKey env req = GateResult.reject 401 (str "API key required")) ∧
    (∀ k, jsOr req.xApiKey req.apiKeyQuery = some k → k ≠ [] → k ≠ env.API_KEY →
      requireApiKey env req = GateResult.reject 403 (str "Invalid API key")) ∧
    (∀ k, jsOr req.xApiKey req.apiKeyQuery = some k → k ≠ [] → k = env.API_KEY →
      requireApiKey env req = GateResult.pass) ∧
    ((∀ h, req.authorization = some h → List.isPrefixOf (str "Bearer ") h = false) →
      requireAdminAuth env req = GateResult.reject 401 (str "Admin authentication required")) ∧
    (∀ h, req.authorization = some h → List.isPrefixOf (str "Bearer ") h = true →
      h.drop 7 ≠ env.ADMIN_PASSWORD →
      requireAdminAuth env req = GateResult.reject 403 (str "Invalid admin credentials")) ∧
    (∀ h, req.authorization = some h → List.isPrefixOf (str "Bearer ") h = true →
      h.drop 7 = env.ADMIN_PASSWORD → requireAdminAuth env req = GateResult.pass) ∧
    (∀ st now body db ntf, requireApiKey env req = GateResult.pass →
      contactRoute env req st now body db ntf = contactHandler env st now body db ntf) ∧
    (∀ pw, requireApiKey env req = GateResult.pass →
      loginRoute env req pw = adminLogin env pw) ∧
    (∀ st db, requireAdminAuth env req = GateResult.pass →
      submissionsRoute env req st db = submissionsHandler st db) ∧
    (∀ st id db, requireAdminAuth env req = GateResult.pass →
      deleteRoute env req st id db = deleteHandler st id db) := by
  refine ⟨?_, ?_, ?_, ?_, ?_, ?_, ?_, ?_, ?_, ?_⟩
  · intro hfalsy
    simp [requireApiKey, hfalsy]
  · intro k hk hne hneq
    simp [requireApiKey, hk, jsTruthy_some_of_ne_nil hne, hneq]
  · intro k hk hne heq
    subst heq
    simp [requireApiKey, hk, jsTruthy_some_of_ne_nil hne]
  · intro hnob
    cases hauth : req.authorization with
    | none => simp [requireAdminAuth, hauth, jsTruthy]
    | some h => simp [requireAdminAuth, hauth, hnob h hauth]
  · intro h hauth hpre hneq
    simp [requireAdminAuth, hauth, hpre, jsTruthy_of_bearer hpre, hneq]
  · intro h hauth hpre heq
    simp [requireAdminAuth, hauth, hpre, jsTruthy_of_bearer hpre, heq]
  · intro st now body db ntf hpass
    simp [contactRoute, hpass]
  · intro pw hpass
    simp [loginRoute, hpass]
  · intro st db hpass
    simp [submissionsRoute, hpass]
  · intro st id db hpass
    simp [deleteRoute, hpass]

/-- C1 witness: with secret "k" a request carrying `x-api-key: k` passes the
API-key gate, and with admin secret "pw" a request carrying
`Authorization: Bearer pw` passes the admin gate. -/
theorem C1_auth_gates_witness :
    requireApiKey ⟨str "k", str "pw", none, none⟩ ⟨some (str "k"), none, none⟩ =
      GateResult.pass ∧
    requireAdminAuth ⟨str "k", str "pw", none, none⟩ ⟨none, none, some (str "Bearer pw")⟩ =
      GateResult.pass := by
  constructor
  · exact (C1_auth_gates ⟨str "k", str "pw", none, none⟩
      ⟨some (str "k"), none, none⟩).2.2.1 (str "k") (by decide) (by decide) (by decide)
  · exact (C1_auth_gates ⟨str "k", str "pw", none, none⟩
      ⟨none, none, some (str "Bearer pw")⟩).2.2.2.2.2.1 (str "Bearer pw") rfl
      (by decide) (by decide)

/-- C9: empty-string credentials at the public interface: an empty
`x-api-key` header (with falsy `apiKey` query parameter) is rejected 401 by
the API-key gate whatever the configured secret (empty included, since the
falsy key is never compared); the header `Authorization: Bearer ` with the
empty token is compared as a token, so it is rejected 403 exactly when the
admin secret is non-empty (and passes when the admin secret is empty); a
login body whose password is the empty string is answered 400 whatever the
configured admin secret (empty included). -/
theorem C9_empty_credentials (env : Config) (req : Request) :
    (req.xApiKey = some [] → jsTruthy req.apiKeyQuery = false →
      requireApiKey env req = GateResult.reject 401 (str "API key required")) ∧
    (req.authorization = some (str "Bearer ") →
      (env.ADMIN_PASSWORD ≠ [] →
        requireAdminAuth env req = GateResult.reject 403 (str "Invalid admin credentials")) ∧
      (env.ADMIN_PASSWORD = [] → requireAdminAuth env req = GateResult.pass)) ∧
    adminLogin env (some []) = errorJson 400 (str "Password required") := by
  refine ⟨?_, ?_, ?_⟩
  · intro hx hq
    have hfalsy : jsTruthy (jsOr req.xApiKey req.apiKeyQuery) = false := by
      simp [jsOr, hx, jsTruthy_some_nil, hq]
    simp [requireApiKey, hfalsy]
  · intro hauth
    have hpre : List.isPrefixOf (str "Bearer ") (str "Bearer ") = true := by decide
    have hdrop : (str "Bearer ").drop 7 = ([] : JSString) := by decide
    constructor
    · intro hne
      have hcond : ([] : JSString) ≠ env.ADMIN_PASSWORD := fun hc => hne hc.symm
      simp [requireAdminAuth, hauth, hpre, jsTruthy_of_bearer hpre, hdrop, hcond]
    · intro hempty
      simp [requireAdminAuth, hauth, hpre, jsTruthy_of_bearer hpre, hdrop, hempty]
  · rfl

/-- C9 witness: with admin secret "pw" and API secret "k": the empty
`x-api-key` is rejected 401, `Authorization: Bearer ` is rejected 403, and
an empty login password is rejected 400. -/
theorem C9_empty_credentials_witness :
    requireApiKey ⟨str "k", str "pw", none, none⟩ ⟨some [], none, none⟩ =
      GateResult.reject 401 (str "API key required") ∧
    requireAdminAuth ⟨str "k", str "pw", none, none⟩ ⟨none, none, some (str "Bearer ")⟩ =
      GateResult.reject 403 (str "Invalid admin credentials") ∧
    adminLogin ⟨str "k", str "pw", none, none⟩ (some []) =
      errorJson 400 (str "Password required") := by
  refine ⟨?_, ?_, ?_⟩
  · exact (C9_empty_credentials ⟨str "k", str "pw", none, none⟩
      ⟨some [], none, none⟩).1 rfl rfl
  · exact ((C9_empty_credentials ⟨str "k", str "pw", none, none⟩
      ⟨none, none, some (str "Bearer ")⟩).2.1 rfl).1 (by decide)
  · exact (C9_empty_credentials ⟨str "k", str "pw", none, none⟩
      ⟨none, none, none⟩).2.2

/-- C2: a contact-form request that reaches the handler (the API-key gate
passed) in which any of the required fields name/business/service/phone is
missing or the empty string is answered 400 with an unchanged store, no
mail is attempted, and the outcome does not depend on the store or notifier
behaviour (no insert is attempted); the SQLite handler behaves the same
with its own message. -/
theorem C2_missing_field_rejected (env : Config) (req : Request) (st : Store) (now : Nat)
    (body : ContactBody) (db : DbOutcome) (ntf : NotifierOutcome)
    (hgate : requireApiKey env req = GateResult.pass)
    (hmiss : jsTruthy body.name = false ∨ jsTruthy body.business = false ∨
      jsTruthy body.service = false ∨ jsTruthy body.phone = false) :
    contactRoute env req st now body db ntf =
      { response := errorJson 400 (str "All fields required"),
        store := st, mails := [], emailLog := [] } ∧
    (∀ db2 ntf2, contactRoute env req st now body db2 ntf2 =
      contactRoute env req st now body db ntf) ∧
    contactHandler_sqlite env st now body db ntf =
      { response := errorJson 400 (str "Please fill in all required fields"),
        store := st, mails := [], emailLog := [] } := by
  have hcond : (!jsTruthy body.name || !jsTruthy body.business ||
      !jsTruthy body.service || !jsTruthy body.phone) = true := by
    rcases hmiss with h | h | h | h <;> simp [h]
  refine ⟨?_, ?_, ?_⟩
  · simp [contactRoute, hgate, contactHandler, hcond]
  · intro db2 ntf2
    simp [contactRoute, hgate, contactHandler, hcond]
  · simp [contactHandler_sqlite, hcond]

/-- C2 witness: an authorized submission with the name field absent is
answered 400 and leaves the store untouched. -/
theorem C2_missing_field_rejected_witness :
    contactRoute cfgW reqApiW { rows := [], nextId := 0 } 0
      { name := none, business := some (str "B"), service := some (str "C"),
        phone := some (str "D"), message := none } DbOutcome.ok NotifierOutcome.sent =
      { response := errorJson 400 (str "All fields required"),
        store := { rows := [], nextId := 0 }, mails := [], emailLog := [] } :=
  (C2_missing_field_rejected cfgW reqApiW { rows := [], nextId := 0 } 0
    { name := none, business := some (str "B"), service := some (str "C"),
      phone := some (str "D"), message := none } DbOutcome.ok NotifierOutcome.sent
    (by decide) (Or.inl rfl)).1

/-- C3: an authorized submission with all four required fields non-empty:
when the insert succeeds the response is 200 `success:true` with the
store-generated id, and the store afterwards holds exactly one new row with
those four values, the supplied message (empty when absent) and status
"new"; when the insert fails the response is 500 and the store is
unchanged. -/
theorem C3_contact_success (env : Config) (req : Request) (st : Store) (now : Nat)
    (body : ContactBody) (ntf : NotifierOutcome)
    (hgate : requireApiKey env req = GateResult.pass)
    (hn : jsTruthy body.name = true) (hb : jsTruthy body.business = true)
    (hs : jsTruthy body.service = true) (hp : jsTruthy body.phone = true) :
    (contactRoute env req st now body DbOutcome.ok ntf).response =
      { status := 200, success := true, message := some (str "Form submitted!"),
        token := none, submissionId := some st.nextId, data := none } ∧
    (contactRoute env req st now body DbOutcome.ok ntf).store.rows =
      st.rows ++
        [{ id := st.nextId, name := body.name.getD [], business := body.business.getD [],
           service := body.service.getD [], phone := body.phone.getD [],
           message := body.message.getD [], timestamp := now, status := str "new" }] ∧
    (contactRoute env req st now body DbOutcome.failure ntf).response =
      errorJson 500 (str "Server error") ∧
    (contactRoute env req st now body DbOutcome.failure ntf).store = st := by
  have hcond : (!jsTruthy body.name || !jsTruthy body.business ||
      !jsTruthy body.service || !jsTruthy body.phone) = false := by
    simp [hn, hb, hs, hp]
  refine ⟨?_, ?_, ?_, ?_⟩ <;>
    simp [contactRoute, hgate, contactHandler, hcond, insertSubmission, jsOrEmpty_eq_getD]

/-- C3 witness: submitting {A, B, C, D} with no message through `cfgW`
yields success with id 0 and stores exactly the expected row. -/
theorem C3_contact_success_witness :
    (contactRoute cfgW reqApiW { rows := [], nextId := 0 } 5
      { name := some (str "A"), business := some (str "B"), service := some (str "C"),
        phone := some (str "D"), message := none } DbOutcome.ok NotifierOutcome.sent).response =
      { status := 200, success := true, message := some (str "Form submitted!"),
        token := none, submissionId := some 0, data := none } ∧
    (contactRoute cfgW reqApiW { rows := [], nextId := 0 } 5
      { name := some (str "A"), business := some (str "B"), service := some (str "C"),
        phone := some (str "D"), message := none } DbOutcome.ok NotifierOutcome.sent).store.rows =
      [{ id := 0, name := str "A", business := str "B", service := str "C",
         phone := str "D", message := [], timestamp := 5, status := str "new" }] := by
  have h := C3_contact_success cfgW reqApiW { rows := [], nextId := 0 } 5
    { name := some (str "A"), business := some (str "B"), service := some (str "C"),
      phone := some (str "D"), message := none } NotifierOutcome.sent
    (by decide) rfl rfl rfl rfl
  exact ⟨h.1, by rw [h.2.1]; rfl⟩

/-- The delete handler answers 404 and keeps the store when no stored row
has the requested id. -/
theorem deleteHandler_notFound (st : Store) (id : Nat)
    (hno : ∀ r ∈ st.rows, r.id ≠ id) :
    deleteHandler st id DbOutcome.ok =
      { response := errorJson 404 (str "Not found"), store := st } := by
  have hkept : st.rows.filter (fun r => r.id ≠ id) = st.rows :=
    List.filter_eq_self.mpr (fun a ha => by simpa using hno a ha)
  simp only [ne_eq, decide_not] at hkept
  simp [deleteHandler, deleteById, hkept]

/-- C4: for a delete request that passes the admin bearer gate: a store
failure is answered 500 with the store unchanged (a case distinct from zero
rows affected); zero rows affected is answered 404 with the store
unchanged; when a row with the id exists (ids being unique), exactly that
row is removed, the response is 200 `success:true`, and deleting the same
id again is answered 404. -/
theorem C4_delete (env : Config) (req : Request) (st : Store) (id : Nat)
    (hgate : requireAdminAuth env req = GateResult.pass) :
    (deleteRoute env req st id DbOutcome.failure).response =
      errorJson 500 (str "Database error") ∧
    (deleteRoute env req st id DbOutcome.failure).store = st ∧
    ((∀ r ∈ st.rows, r.id ≠ id) →
      deleteRoute env req st id DbOutcome.ok =
        { response := errorJson 404 (str "Not found"), store := st }) ∧
    ((st.rows.map Submission.id).Nodup → ∀ r ∈ st.rows, r.id = id →
      (deleteRoute env req st id DbOutcome.ok).response =
        { status := 200, success := true, message := some (str "Deleted"),
          token := none, submissionId := none, data := none } ∧
      (deleteRoute env req st id DbOutcome.ok).store.rows =
        st.rows.filter (fun x => x.id ≠ id) ∧
      r ∉ (deleteRoute env req st id DbOutcome.ok).store.rows ∧
      (∀ x ∈ st.rows, x ≠ r → x ∈ (deleteRoute env req st id DbOutcome.ok).store.rows) ∧
      (deleteRoute env req (deleteRoute env req st id DbOutcome.ok).store id
        DbOutcome.ok).response = errorJson 404 (str "Not found")) := by
  refine ⟨?_, ?_, ?_, ?_⟩
  · simp [deleteRoute, hgate, deleteHandler]
  · simp [deleteRoute, hgate, deleteHandler]
  · intro hno
    simp [deleteRoute, hgate, deleteHandler_notFound st id hno]
  · intro hnd r hr hid
    have hrmem : r ∉ st.rows.filter (fun x => x.id ≠ id) := by
      intro hmem
      have := (List.mem_filter.mp hmem).2
      simp [hid] at this
    have hlen : (st.rows.filter (fun x => x.id ≠ id)).length < st.rows.length := by
      rcases Nat.lt_or_ge (st.rows.filter (fun x => x.id ≠ id)).length st.rows.length with h | h
      · exact h
      · exfalso
        have hsub : List.Sublist (st.rows.filter (fun x => x.id ≠ id)) st.rows :=
          List.filter_sublist _
        have heq : (st.rows.filter (fun x => x.id ≠ id)).length = st.rows.length :=
          Nat.le_antisymm hsub.length_le h
        rw [hsub.eq_of_length heq] at hrmem
        exact hrmem hr
    have hcount : st.rows.length - (st.rows.filter (fun x => x.id ≠ id)).length ≠ 0 :=
      Nat.sub_ne_zero_of_lt hlen
    simp only [ne_eq, decide_not] at hcount
    have hroute : deleteRoute env req st id DbOutcome.ok =
        { response :=
            { status := 200, success := true, message := some (str "Deleted"),
              token := none, submissionId := none, data := none },
          store := { rows := st.rows.filter (fun x => x.id ≠ id), nextId := st.nextId } } := by
      simp [deleteRoute, hgate, deleteHandler, deleteById, hcount]
    refine ⟨by rw [hroute], by rw [hroute], ?_, ?_, ?_⟩
    · rw [hroute]
      exact hrmem
    · intro x hx hxr
      rw [hroute]
      refine List.mem_filter.mpr ⟨hx, ?_⟩
      have hxid : x.id ≠ id := by
        intro hxeq
        exact hxr (List.inj_on_of_nodup_map hnd hx hr (hxeq.trans hid.symm))
      simpa using hxid
    · rw [hroute]
      have hno2 : ∀ x ∈ st.rows.filter (fun y => y.id ≠ id), x.id ≠ id := by
        intro x hx
        have := (List.mem_filter.mp hx).2
        simpa using this
      have h2 := deleteHandler_notFound
        { rows := st.rows.filter (fun x => x.id ≠ id), nextId := st.nextId } id hno2
      simp only [ne_eq, decide_not] at h2
      simp [deleteRoute, hgate, h2]

/-- C4 witness: in the one-row store (row id 1), deleting id 1 succeeds,
deleting it again is answered 404, and a store failure is answered 500. -/
theorem C4_delete_witness :
    (deleteRoute cfgW reqAdminW stW 1 DbOutcome.ok).response =
      { status := 200, success := true, message := some (str "Deleted"),
        token := none, submissionId := none, data := none } ∧
    (deleteRoute cfgW reqAdminW (deleteRoute cfgW reqAdminW stW 1 DbOutcome.ok).store 1
      DbOutcome.ok).response = errorJson 404 (str "Not found") ∧
    (deleteRoute cfgW reqAdminW stW 1 DbOutcome.failure).response =
      errorJson 500 (str "Database error") := by
  have h := C4_delete cfgW reqAdminW stW 1 (by decide)
  have h4 := h.2.2.2 (by decide) rowW (by simp [stW]) rfl
  exact ⟨h4.1, h4.2.2.2.2, h.1⟩

/-- The response, resulting store and attempted mails of the SQLite
contact handler do not depend on the notifier behaviour. -/
theorem contactHandler_sqlite_notifier_parts (env : Config) (st : Store) (now : Nat)
    (body : ContactBody) (db : DbOutcome) (n1 n2 : NotifierOutcome) :
    (contactHandler_sqlite env st now body db n1).response =
      (contactHandler_sqlite env st now body db n2).response ∧
    (contactHandler_sqlite env st now body db n1).store =
      (contactHandler_sqlite env st now body db n2).store ∧
    (contactHandler_sqlite env st now body db n1).mails =
      (contactHandler_sqlite env st now body db n2).mails := by
  refine ⟨?_, ?_, ?_⟩ <;>
  · by_cases hC : (!jsTruthy body.name || !jsTruthy body.business ||
        !jsTruthy body.service || !jsTruthy body.phone) = true
    · simp [contactHandler_sqlite, hC]
    · rw [Bool.not_eq_true] at hC
      cases db <;> simp [contactHandler_sqlite, hC]

/-- The Postgres contact handler logs nothing about the mail send in any
branch. -/
theorem contactHandler_emailLog_nil (env : Config) (st : Store) (now : Nat)
    (body : ContactBody) (db : DbOutcome) (n : NotifierOutcome) :
    (contactHandler env st now body db n).emailLog = [] := by
  by_cases hC : (!jsTruthy body.name || !jsTruthy body.business ||
      !jsTruthy body.service || !jsTruthy body.phone) = true
  · simp [contactHandler, hC]
  · rw [Bool.not_eq_true] at hC
    cases db <;> simp [contactHandler, hC]

/-- C5 counterexample: in `src/server.js`, for a valid submission whose
insert succeeded, a notification send is attempted and the notifier fails,
yet the handler's log stays empty — the claim that notification-send errors
are logged fails for this implementation. -/
theorem C5_counterexample :
    (contactHandler cfgW { rows := [], nextId := 0 } 0
      { name := some (str "A"), business := some (str "B"), service := some (str "C"),
        phone := some (str "D"), message := none }
      DbOutcome.ok NotifierOutcome.failed).mails ≠ [] ∧
    (contactHandler cfgW { rows := [], nextId := 0 } 0
      { name := some (str "A"), business := some (str "B"), service := some (str "C"),
        phone := some (str "D"), message := none }
      DbOutcome.ok NotifierOutcome.failed).emailLog = [] := by
  exact ⟨by decide, rfl⟩

/-- C5 (amended): the contact-submission response (status and body) and the
resulting store are a function of the store outcome alone — identical for
any two notifier behaviours — in both implementations, and no notification
error reaches the client; the SQLite implementation logs a failed send
(when a send was attempted), while the Postgres implementation logs
nothing. -/
theorem C5_notifier_independence (env : Config) (st : Store) (now : Nat)
    (body : ContactBody) (db : DbOutcome) (n1 n2 : NotifierOutcome) :
    contactHandler env st now body db n1 = contactHandler env st now body db n2 ∧
    (contactHandler_sqlite env st now body db n1).response =
      (contactHandler_sqlite env st now body db n2).response ∧
    (contactHandler_sqlite env st now body db n1).store =
      (contactHandler_sqlite env st now body db n2).store ∧
    (contactHandler env st now body db n1).emailLog = [] ∧
    (jsTruthy body.name = true → jsTruthy body.business = true →
      jsTruthy body.service = true → jsTruthy body.phone = true →
      jsTruthy env.EMAIL_USER = true → jsTruthy env.EMAIL_PASS = true →
      (contactHandler_sqlite env st now body DbOutcome.ok NotifierOutcome.failed).emailLog =
        [str "Email sending failed:"]) := by
  refine ⟨rfl, (contactHandler_sqlite_notifier_parts env st now body db n1 n2).1,
    (contactHandler_sqlite_notifier_parts env st now body db n1 n2).2.1,
    contactHandler_emailLog_nil env st now body db n1, ?_⟩
  intro hn hb hs hp hu hpass
  have hC : (!jsTruthy body.name || !jsTruthy body.business ||
      !jsTruthy body.service || !jsTruthy body.phone) = false := by
    simp [hn, hb, hs, hp]
  simp [contactHandler_sqlite, hC, hu, hpass]

/-- C5 witness: with e-mail credentials configured and a valid submission,
the SQLite handler logs the failed send. -/
theorem C5_notifier_independence_witness :
    (contactHandler_sqlite cfgW { rows := [], nextId := 0 } 0
      { name := some (str "A"), business := some (str "B"), service := some (str "C"),
        phone := some (str "D"), message := none }
      DbOutcome.ok NotifierOutcome.failed).emailLog = [str "Email sending failed:"] :=
  (C5_notifier_independence cfgW { rows := [], nextId := 0 } 0
    { name := some (str "A"), business := some (str "B"), service := some (str "C"),
      phone := some (str "D"), message := none }
    DbOutcome.ok NotifierOutcome.failed NotifierOutcome.failed).2.2.2.2 rfl rfl rfl rfl rfl rfl

/-- C6 counterexample: for the successful submission {A, B, C, D, m}
handled by `src/server.js` with generated id 7, the notification e-mail
interpolates neither the generated id nor the current time. -/
theorem C6_counterexample :
    ((contactHandler cfgW { rows := [], nextId := 7 } 3
      { name := some (str "A"), business := some (str "B"), service := some (str "C"),
        phone := some (str "D"), message := some (str "m") }
      DbOutcome.ok NotifierOutcome.sent).response).submissionId = some 7 ∧
    ((contactHandler cfgW { rows := [], nextId := 7 } 3
      { name := some (str "A"), business := some (str "B"), service := some (str "C"),
        phone := some (str "D"), message := some (str "m") }
      DbOutcome.ok NotifierOutcome.sent).mails).map MailContent.submissionId = [none] ∧
    ((contactHandler cfgW { rows := [], nextId := 7 } 3
      { name := some (str "A"), business := some (str "B"), service := some (str "C"),
        phone := some (str "D"), message := some (str "m") }
      DbOutcome.ok NotifierOutcome.sent).mails).map MailContent.time = [none] := by
  exact ⟨rfl, rfl, rfl⟩

/-- C6 (amended): for a successful submission the notification e-mail
contains the submitted name, business, service, phone and message; in the
SQLite implementation it additionally contains the store-generated id and
the current time, while the Postgres implementation's e-mail omits both
(and renders an absent message as "undefined"). -/
theorem C6_mail_contents (env : Config) (st : Store) (now : Nat) (body : ContactBody)
    (ntf : NotifierOutcome)
    (hn : jsTruthy body.name = true) (hb : jsTruthy body.business = true)
    (hs : jsTruthy body.service = true) (hp : jsTruthy body.phone = true)
    (hu : jsTruthy env.EMAIL_USER = true) (hpass : jsTruthy env.EMAIL_PASS = true) :
    (contactHandler_sqlite env st now body DbOutcome.ok ntf).mails =
      [{ recipient := env.EMAIL_USER,
         subject := str "🎯 New Lead: " ++ jsInterp body.business ++ str " - MarketBloom Studio",
         name := jsInterp body.name, business := jsInterp body.business,
         service := jsInterp body.service, phone := jsInterp body.phone,
         message := if jsTruthy body.message then jsInterp body.message
           else str "No additional message",
         submissionId := some st.nextId, time := some now }] ∧
    (contactHandler_sqlite env st now body DbOutcome.ok ntf).response.submissionId =
      some st.nextId ∧
    (contactHandler env st now body DbOutcome.ok ntf).mails =
      [{ recipient := env.EMAIL_USER,
         subject := str "🎯 New Lead: " ++ jsInterp body.business,
         name := jsInterp body.name, business := jsInterp body.business,
         service := jsInterp body.service, phone := jsInterp body.phone,
         message := jsInterp body.message, submissionId := none, time := none }] ∧
    (contactHandler env st now body DbOutcome.ok ntf).response.submissionId =
      some st.nextId := by
  have hC : (!jsTruthy body.name || !jsTruthy body.business ||
      !jsTruthy body.service || !jsTruthy body.phone) = false := by
    simp [hn, hb, hs, hp]
  refine ⟨?_, ?_, ?_, ?_⟩ <;>
    simp [contactHandler_sqlite, contactHandler, hC, hu, hpass, insertSubmission]

/-- C6 witness: a concrete submission through the SQLite handler yields a
mail carrying id 0 and time 5. -/
theorem C6_mail_contents_witness :
    (contactHandler_sqlite cfgW { rows := [], nextId := 0 } 5
      { name := some (str "A"), business := some (str "B"), service := some (str "C"),
        phone := some (str "D"), message := none }
      DbOutcome.ok NotifierOutcome.sent).mails =
      [{ recipient := some (str "u"),
         subject := str "🎯 New Lead: B - MarketBloom Studio",
         name := str "A", business := str "B", service := str "C", phone := str "D",
         message := str "No additional message",
         submissionId := some 0, time := some 5 }] := by
  have h := (C6_mail_contents cfgW { rows := [], nextId := 0 } 5
    { name := some (str "A"), business := some (str "B"), service := some (str "C"),
      phone := some (str "D"), message := none }
    NotifierOutcome.sent rfl rfl rfl rfl rfl rfl).1
  rw [h]
  rfl

/-- C7: for an admin-authenticated list request, a store failure is
answered 500; a successful read is answered 200 `success:true` with the
stored rows ordered by timestamp descending: the result is a permutation of
the store and whenever a row at position i has a strictly smaller timestamp
than a row at position j, position j comes first (j < i). -/
theorem C7_list_ordered (env : Config) (req : Request) (st : Store)
    (hgate : requireAdminAuth env req = GateResult.pass) :
    submissionsRoute env req st DbOutcome.failure = errorJson 500 (str "Database error") ∧
    submissionsRoute env req st DbOutcome.ok =
      { status := 200, success := true, message := none, token := none,
        submissionId := none, data := some (selectAllByTimestampDesc st) } ∧
    (selectAllByTimestampDesc st).Perm st.rows ∧
    (∀ i j (hi : i < (selectAllByTimestampDesc st).length)
      (hj : j < (selectAllByTimestampDesc st).length),
      ((selectAllByTimestampDesc st).get ⟨i, hi⟩).timestamp <
        ((selectAllByTimestampDesc st).get ⟨j, hj⟩).timestamp → j < i) := by
  refine ⟨by simp [submissionsRoute, hgate, submissionsHandler],
    by simp [submissionsRoute, hgate, submissionsHandler],
    List.perm_insertionSort tsDesc st.rows, ?_⟩
  intro i j hi hj hlt
  by_contra hji
  rw [Nat.not_lt] at hji
  have hsorted := List.sorted_insertionSort tsDesc st.rows
  rcases Nat.lt_or_eq_of_le hji with hij | hij
  · have hrel := hsorted.rel_get_of_lt (a := ⟨i, hi⟩) (b := ⟨j, hj⟩) hij
    exact absurd hlt (Nat.not_lt.mpr hrel)
  · subst hij
    exact Nat.lt_irrefl _ hlt

/-- C7 witness: in the two-row store with timestamps 1 < 2, the listing
returns the timestamp-2 row first, and a store failure is answered 500. -/
theorem C7_list_ordered_witness :
    submissionsRoute cfgW reqAdminW stW2 DbOutcome.ok =
      { status := 200, success := true, message := none, token := none,
        submissionId := none, data := some [rowW2, rowW] } ∧
    submissionsRoute cfgW reqAdminW stW2 DbOutcome.failure =
      errorJson 500 (str "Database error") := by
  have h := C7_list_ordered cfgW reqAdminW stW2 (by decide)
  refine ⟨?_, h.1⟩
  rw [h.2.1]
  rfl

/-- C8 counterexample: with the admin secret configured as the empty string
and a valid API key, a login whose password (the empty string) equals the
configured secret is answered 400, not success — the claim's success clause
fails for empty passwords. -/
theorem C8_counterexample :
    loginRoute
      { API_KEY := str "k", ADMIN_PASSWORD := [], EMAIL_USER := none, EMAIL_PASS := none }
      { xApiKey := some (str "k"), apiKeyQuery := none, authorization := none }
      (some []) = errorJson 400 (str "Password required") ∧
    some ([] : JSString) =
      some ({ API_KEY := str "k", ADMIN_PASSWORD := [], EMAIL_USER := none,
              EMAIL_PASS := none } : Config).ADMIN_PASSWORD := by
  exact ⟨by decide, rfl⟩

/-- C8 (amended): for a login request that passed the API-key gate: a
non-empty password equal to the configured admin secret is answered 200
`success:true` with the secret echoed as the token, and any request that
carries exactly that token as `Authorization: Bearer <token>` passes the
admin bearer gate and reaches the list and delete handlers; a non-empty
wrong password is answered 401; a missing password is answered 400; the
login handler touches no state. -/
theorem C8_login_roundtrip (env : Config) (req : Request) (pw : Option JSString)
    (hgate : requireApiKey env req = GateResult.pass) :
    (pw = some env.ADMIN_PASSWORD → env.ADMIN_PASSWORD ≠ [] →
      loginRoute env req pw =
        { status := 200, success := true, message := none,
          token := some env.ADMIN_PASSWORD, submissionId := none, data := none } ∧
      (∀ q : Request, q.authorization = some (str "Bearer " ++ env.ADMIN_PASSWORD) →
        requireAdminAuth env q = GateResult.pass ∧
        (∀ st db, submissionsRoute env q st db = submissionsHandler st db) ∧
        (∀ st i db, deleteRoute env q st i db = deleteHandler st i db))) ∧
    (∀ p, pw = some p → p ≠ [] → p ≠ env.ADMIN_PASSWORD →
      loginRoute env req pw = errorJson 401 (str "Invalid password")) ∧
    (pw = none → loginRoute env req pw = errorJson 400 (str "Password required")) := by
  have hadmin : ∀ q : Request, q.authorization = some (str "Bearer " ++ env.ADMIN_PASSWORD) →
      requireAdminAuth env q = GateResult.pass := by
    intro q hq
    have hpre := bearer_isPrefixOf env.ADMIN_PASSWORD
    have hdrop := bearer_drop env.ADMIN_PASSWORD
    simp [requireAdminAuth, hq, hpre, jsTruthy_of_bearer hpre, hdrop]
  refine ⟨?_, ?_, ?_⟩
  · intro hpw hne
    subst hpw
    refine ⟨by simp [loginRoute, hgate, adminLogin, jsTruthy_some_of_ne_nil hne], ?_⟩
    intro q hq
    refine ⟨hadmin q hq, ?_, ?_⟩
    · intro st db
      simp [submissionsRoute, hadmin q hq]
    · intro st i db
      simp [deleteRoute, hadmin q hq]
  · intro p hp hne hneq
    subst hp
    simp [loginRoute, hgate, adminLogin, jsTruthy_some_of_ne_nil hne, hneq]
  · intro hnone
    subst hnone
    simp [loginRoute, hgate, adminLogin, jsTruthy]

/-- C8 witness: logging in with the correct password "pw" through `cfgW`
returns the token "pw", and the bearer request built from that token passes
the admin gate. -/
theorem C8_login_roundtrip_witness :
    loginRoute cfgW reqApiW (some (str "pw")) =
      { status := 200, success := true, message := none,
        token := some (str "pw"), submissionId := none, data := none } ∧
    requireAdminAuth cfgW reqAdminW = GateResult.pass := by
  have h := (C8_login_roundtrip cfgW reqApiW (some (str "pw")) (by decide)).1 rfl (by decide)
  exact ⟨h.1, (h.2 reqAdminW (by decide)).1⟩
